import Mathlib

/-!
Shallow embedding of the Coordinator component of `ollama-rs`
(src/ollama-rs/src/coordinator.rs), together with proofs about the
behaviour of `Coordinator::chat`.

The live code of `chat` (lines 102-158 of coordinator.rs) builds a
`ChatMessageRequest`, decides whether to attach the configured format
constraint, submits the request via
`send_chat_messages_with_history_stream`, consumes the fragment stream
with `while let Some(Ok(res)) = stream.next().await`, and returns a
freshly assembled `ChatMessageResponse`.  The tool-dispatch and
recursion block (lines 160-195) is commented out in the source and is
therefore not part of the embedded behaviour; the outcome record below
still carries a `dispatched` log and a `rounds` counter so that claims
about tool dispatch and recursion can be stated.

External collaborators that are not under src/ (the error enum, the
chat-service call, the message/request types) are modelled from the
spec and from their use sites in coordinator.rs; each such definition
says so in its doc comment.
-/

namespace OllamaRs

/-- Role of a chat message, from the use sites in coordinator.rs
(`MessageRole::Tool`, `ChatMessage::assistant`, `ChatMessage::custom`
in the example): the four fixed roles plus a custom string tag. -/
inductive MessageRole where
  | system
  | user
  | assistant
  | tool
  | custom (tag : String)
  deriving DecidableEq

/-- Modelled from the spec: a tool-call request carried by a model
message (name of the tool and its argument payload); the concrete type
lives outside src/. -/
structure ToolCall where
  name : String
  arguments : String
  deriving DecidableEq, BEq

/-- Modelled from the spec: a chat message (role, content, optional
tool-call payload); the concrete type lives outside src/. -/
structure ChatMessage where
  role : MessageRole
  content : String
  tool_calls : List ToolCall
  deriving DecidableEq

/-- Constructor `ChatMessage::assistant`, used at line 155 of
coordinator.rs: an assistant message with the given content and no
tool calls. -/
def ChatMessage.assistant (content : String) : ChatMessage :=
  { role := MessageRole.assistant, content := content, tool_calls := [] }

/-- Constructor `ChatMessage::user`, used by callers. -/
def ChatMessage.user (content : String) : ChatMessage :=
  { role := MessageRole.user, content := content, tool_calls := [] }

/-- Constructor `ChatMessage::tool`, used by the (disabled) dispatch
block at line 180. -/
def ChatMessage.tool (content : String) : ChatMessage :=
  { role := MessageRole.tool, content := content, tool_calls := [] }

/-- Modelled from the spec: the format constraint is an opaque
structured-output schema or enum tag; only its identity matters to the
Coordinator. -/
structure FormatType where
  schema : String
  deriving DecidableEq

/-- Modelled from the spec: generation options are an opaque key/value
bag passed through to the service. -/
structure ModelOptions where
  opts : List (String × String)
  deriving DecidableEq

/-- Default generation options (`ModelOptions::default()` at lines 48
and 74 of coordinator.rs). -/
def ModelOptions.empty : ModelOptions := { opts := [] }

/-- Modelled from the spec: the error taxonomy of §7.  The error enum
is not under src/; coordinator.rs names `OllamaError::MutexPoisoned`,
and the spec adds transport, tool-execution and iteration-limit
errors. -/
inductive OllamaError where
  | MutexPoisoned
  | TransportError (msg : String)
  | ToolExecutionError (msg : String)
  | IterationLimitExceeded
  deriving DecidableEq

/-- Modelled from the spec: a tool descriptor (name, description,
parameter schema) as enumerated by `T::tool_info`. -/
structure ToolInfo where
  name : String
  description : String
  deriving DecidableEq

/-- Modelled from the spec: the ToolGroup capability — enumerate tool
descriptors (`T::tool_info(&mut tools)` at line 119) and dispatch a
named call (`self.tools.call(&call.function)` in the disabled block at
line 174). -/
structure ToolGroup where
  tool_info : List ToolInfo
  call : ToolCall → Except String String

/-- The no-tools group `()` used by `Coordinator::new`. -/
def ToolGroup.unit : ToolGroup :=
  { tool_info := [], call := fun _ => Except.error "no tools" }

/-- Modelled from the use sites in coordinator.rs (lines 113-136): the
outgoing chat request — model name, messages, options, tool
descriptors, optional format constraint. -/
structure ChatMessageRequest where
  model_name : String
  messages : List ChatMessage
  options : Option ModelOptions
  tools : List ToolInfo
  format : Option FormatType
  deriving DecidableEq

/-- Builder `ChatMessageRequest::new(model, messages)` (line 113). -/
def ChatMessageRequest.new (model_name : String) (messages : List ChatMessage) :
    ChatMessageRequest :=
  { model_name := model_name, messages := messages, options := none,
    tools := [], format := none }

/-- Builder `.options(...)` (line 114). -/
def ChatMessageRequest.withOptions (r : ChatMessageRequest) (o : ModelOptions) :
    ChatMessageRequest :=
  { r with options := some o }

/-- Builder `.tools::<T>()` (line 115): attaches the descriptors
enumerated from the tool group. -/
def ChatMessageRequest.withTools (r : ChatMessageRequest) (ts : List ToolInfo) :
    ChatMessageRequest :=
  { r with tools := ts }

/-- Builder `.format(...)` (lines 126 and 135). -/
def ChatMessageRequest.withFormat (r : ChatMessageRequest) (f : FormatType) :
    ChatMessageRequest :=
  { r with format := some f }

/-- The response type assembled at lines 152-158 of coordinator.rs:
model name, creation timestamp, one message, done flag, optional final
metadata (modelled as a unit payload, attached only by the service). -/
structure ChatMessageResponse where
  model : String
  created_at : String
  message : ChatMessage
  done : Bool
  final_data : Option Unit
  deriving DecidableEq

/-- The Coordinator struct (lines 22-30 of coordinator.rs).  The
`Arc<Mutex<C>>` history field is shared state and is modelled in two
parts: the handle identity lives here as `historyHandle` (cloning the
Arc at lines 98-99 and 142 preserves this identity), while the guarded
contents and the poison flag live in `World` below. -/
structure Coordinator where
  model : String
  options : ModelOptions
  historyHandle : Nat
  tools : ToolGroup
  debug : Bool
  format : Option FormatType

/-- Getter `Coordinator::history` (lines 98-100): returns a clone of
the shared handle, i.e. the same handle identity. -/
def Coordinator.history (c : Coordinator) : Nat :=
  c.historyHandle

/-- Constructor `Coordinator::new` (lines 44-54): no tools, default
options, debug off, no format. -/
def Coordinator.new (model : String) (historyHandle : Nat) : Coordinator :=
  { model := model, options := ModelOptions.empty,
    historyHandle := historyHandle, tools := ToolGroup.unit,
    debug := false, format := none }

/-- Constructor `Coordinator::new_with_tools` (lines 70-80). -/
def Coordinator.new_with_tools (model : String) (historyHandle : Nat)
    (tools : ToolGroup) : Coordinator :=
  { model := model, options := ModelOptions.empty,
    historyHandle := historyHandle, tools := tools,
    debug := false, format := none }

/-- The mutable environment of one `chat` call: the contents of the
shared history behind the mutex, whether the mutex is poisoned, and
the text written to the live output sink so far. -/
structure World where
  history : List ChatMessage
  poisoned : Bool
  stdout : String

/-- Observable events of one `chat` execution, used to state the lock
discipline: acquiring/releasing the history mutex and suspending at an
`.await` point. -/
inductive Event where
  | lockAcquire
  | lockRelease
  | suspend
  deriving DecidableEq

/-- A fragment delivered by the response stream: either a response
chunk or a fragment-level error (the stream item type is a `Result`;
the error payload is irrelevant to the Coordinator, which never binds
it). -/
abbrev Fragment := Except Unit ChatMessageResponse

/-- Result of the accumulation loop at lines 145-150 of
coordinator.rs: the accumulated content, the text written to stdout,
and the trace of `.await` suspensions (`stream.next()`, `write_all`,
`flush`).  The loop `while let Some(Ok(res))` consumes fragments while
the next item is `Some(Ok(_))`: it stops at the end of the stream or
at the first error fragment, and never inspects the `done` flag. -/
structure StreamRun where
  acc : String
  written : String
  trace : List Event

/-- The accumulation loop (lines 145-150). -/
def consumeStream : List Fragment → StreamRun
  | [] => { acc := "", written := "", trace := [Event.suspend] }
  | Except.error _ :: _ => { acc := "", written := "", trace := [Event.suspend] }
  | Except.ok res :: rest =>
      let r := consumeStream rest
      { acc := res.message.content ++ r.acc,
        written := res.message.content ++ r.written,
        trace := Event.suspend :: Event.suspend :: Event.suspend :: r.trace }

/-- Modelled from the spec:
`send_chat_messages_with_history_stream` is not under src/.  Per §4.1
it acquires the history lock to append the new messages (failing with
`MutexPoisoned` when the lock is poisoned) and may fail with a
transport error before yielding any fragment; otherwise it yields the
lazy fragment stream.  The possible pre-stream failure is an input
(`transportErr`). -/
def sendPrecheck (w : World) (transportErr : Option String) :
    Except OllamaError Unit :=
  if w.poisoned then Except.error OllamaError.MutexPoisoned
  else
    match transportErr with
    | some e => Except.error (OllamaError.TransportError e)
    | none => Except.ok ()

/-- The format-policy decision of lines 117-138 of coordinator.rs.  If
no format is configured the request is left alone.  Otherwise: when
the descriptor list enumerated from the tool group is empty the format
is attached unconditionally; when it is non-empty the history lock is
acquired (failing with `MutexPoisoned` when poisoned), the last stored
message is inspected, the format is attached exactly when that message
exists and has role Tool, and the lock is released before anything
else happens.  The returned event list records the lock usage. -/
def formatStep (format : Option FormatType) (tools : List ToolInfo)
    (history : List ChatMessage) (poisoned : Bool)
    (request : ChatMessageRequest) :
    Except OllamaError (ChatMessageRequest × List Event) :=
  match format with
  | none => Except.ok (request, [])
  | some format =>
      if tools.isEmpty then
        Except.ok (request.withFormat format, [])
      else if poisoned then
        Except.error OllamaError.MutexPoisoned
      else
        match history.getLast? with
        | some last_message =>
            if last_message.role = MessageRole.tool then
              Except.ok (request.withFormat format,
                [Event.lockAcquire, Event.lockRelease])
            else
              Except.ok (request, [Event.lockAcquire, Event.lockRelease])
        | none => Except.ok (request, [Event.lockAcquire, Event.lockRelease])

/-- Everything observable about one `chat` invocation: its result, the
Coordinator and world afterwards, the event trace, the request that
was submitted to the service (if any), the log of tool dispatches
performed, and the number of service round-trips. -/
structure ChatOutcome where
  result : Except OllamaError ChatMessageResponse
  coord : Coordinator
  world : World
  trace : List Event
  sent : Option ChatMessageRequest
  dispatched : List ToolCall
  rounds : Nat

/-- The embedding of `Coordinator::chat` (lines 102-158 of
coordinator.rs).  Inputs beyond the new messages are the environment:
the world state, whether the service call fails before streaming, and
the fragment stream the service yields.  Step by step:

* lines 106-111: the debug output is a diagnostic side effect with no
  functional content and is not modelled;
* lines 113-115: build the request from the model, messages, options
  and the descriptors enumerated from the tool group;
* lines 117-138: if a format is configured, attach it when the
  descriptor list is empty; otherwise lock the history (failing with
  `MutexPoisoned` when poisoned) and attach it only when the last
  stored message has role Tool, releasing the lock before anything
  suspends;
* lines 140-143: submit the request (modelled by `sendPrecheck` plus
  the given stream); per the spec the service appends the new messages
  and the eventual assistant message to the shared history;
* lines 145-150: run the accumulation loop, writing each delta to
  stdout;
* lines 152-158: assemble the response: the Coordinator's model name,
  a default (empty) timestamp, a fresh assistant message holding the
  accumulated content, done = true, no final data.

The tool-dispatch and recursion block (lines 160-195) is commented out
in the source, so no branch below dispatches a tool or performs a
second round-trip; `dispatched` is always empty and `rounds` is at
most 1. -/
def Coordinator.chat (c : Coordinator) (w : World) (messages : List ChatMessage)
    (transportErr : Option String) (stream : List Fragment) : ChatOutcome :=
  match formatStep c.format c.tools.tool_info w.history w.poisoned
      (((ChatMessageRequest.new c.model messages).withOptions c.options).withTools
        c.tools.tool_info) with
  | Except.error e =>
      { result := Except.error e, coord := c, world := w, trace := [],
        sent := none, dispatched := [], rounds := 0 }
  | Except.ok (req, tr) =>
      match sendPrecheck w transportErr with
      | Except.error OllamaError.MutexPoisoned =>
          { result := Except.error OllamaError.MutexPoisoned, coord := c,
            world := w, trace := tr ++ [Event.suspend], sent := none,
            dispatched := [], rounds := 1 }
      | Except.error e =>
          { result := Except.error e, coord := c, world := w,
            trace := tr ++ [Event.suspend], sent := some req,
            dispatched := [], rounds := 1 }
      | Except.ok _ =>
          let run := consumeStream stream
          { result := Except.ok
              { model := c.model, created_at := "",
                message := ChatMessage.assistant run.acc, done := true,
                final_data := none },
            coord := c,
            world :=
              { history := w.history ++ req.messages ++
                  [ChatMessage.assistant run.acc],
                poisoned := w.poisoned,
                stdout := w.stdout ++ run.written },
            trace := tr ++ Event.suspend :: run.trace,
            sent := some req, dispatched := [], rounds := 1 }

/-- Concatenation, in order, of the content deltas of a fragment
list. -/
def concatContents : List ChatMessageResponse → String
  | [] => ""
  | r :: rs => r.message.content ++ concatContents rs

/-- Content of the longest prefix of fragments the loop at lines
145-150 consumes: everything up to the end of the stream or the first
error fragment. -/
def okPrefixContent : List Fragment → String
  | Except.ok r :: rest => r.message.content ++ okPrefixContent rest
  | _ => ""

/-- All tool calls carried by the fragments the loop consumes, in
order. -/
def streamToolCalls : List Fragment → List ToolCall
  | Except.ok r :: rest => r.message.tool_calls ++ streamToolCalls rest
  | _ => []

/-- Whether the done flag of the last fragment of a list is set
(vacuously true for the empty list). -/
def lastDone : List ChatMessageResponse → Bool
  | [] => true
  | [r] => r.done
  | _ :: r :: rs => lastDone (r :: rs)

/-- Whether a result is the iteration-limit error of §7. -/
def isIterLimit : Except OllamaError ChatMessageResponse → Bool
  | Except.error OllamaError.IterationLimitExceeded => true
  | _ => false

/-- Whether any suspension event occurs while the lock depth is
positive. -/
def suspendWhileLocked : List Event → Nat → Bool
  | [], _ => false
  | Event.lockAcquire :: es, d => suspendWhileLocked es (d + 1)
  | Event.lockRelease :: es, d => suspendWhileLocked es (d - 1)
  | Event.suspend :: es, d => decide (0 < d) || suspendWhileLocked es d

/-- A trace consisting solely of suspension events. -/
def onlySuspends : List Event → Bool
  | [] => true
  | Event.suspend :: es => onlySuspends es
  | _ => false

/-! Concrete fixtures used to instantiate the theorems: sample
coordinators, worlds and fragment streams. -/

/-- A tool group with one registered tool. -/
def echoGroup : ToolGroup :=
  { tool_info := [{ name := "echo", description := "echoes its input" }],
    call := fun tc => Except.ok tc.arguments }

/-- A coordinator with no tools and no format constraint, as built by
`Coordinator::new`. -/
def plainCoordinator : Coordinator := Coordinator.new "llama" 0

/-- A coordinator with one registered tool, as built by
`Coordinator::new_with_tools`. -/
def toolCoordinator : Coordinator := Coordinator.new_with_tools "llama" 0 echoGroup

/-- A coordinator with no tools and a configured format constraint. -/
def formatCoordinator : Coordinator :=
  { model := "llama", options := ModelOptions.empty, historyHandle := 0,
    tools := ToolGroup.unit, debug := false,
    format := some { schema := "json" } }

/-- An empty, unpoisoned world. -/
def emptyWorld : World := { history := [], poisoned := false, stdout := "" }

/-- A world whose history lock has been poisoned by a prior panic. -/
def poisonedWorld : World := { history := [], poisoned := true, stdout := "" }

/-- A response fragment with the given content delta, done flag and
tool calls. -/
def mkFragment (content : String) (d : Bool) (calls : List ToolCall) :
    ChatMessageResponse :=
  { model := "llama", created_at := "t",
    message := { role := MessageRole.assistant, content := content,
                 tool_calls := calls },
    done := d, final_data := none }

/-- A stream with a fragment-level error between two chunks. -/
def midErrorStream : List Fragment :=
  [Except.ok (mkFragment "a" false []), Except.error (),
   Except.ok (mkFragment "b" true [])]

/-- A stream whose single terminal fragment carries one tool call. -/
def toolCallStream : List Fragment :=
  [Except.ok (mkFragment "" true [{ name := "echo", arguments := "x=1" }])]

/-- A stream in the endless tool-call scenario: every delivered turn
requests another tool call. -/
def endlessToolCallStream : List Fragment :=
  [Except.ok (mkFragment "" true [{ name := "echo", arguments := "again" }])]

/-- A stream with a fragment after the terminal fragment. -/
def pastTerminalStream : List Fragment :=
  [Except.ok (mkFragment "a" true []), Except.ok (mkFragment "b" false [])]

/-- The response chat assembles from an empty stream. -/
def respEmpty : ChatMessageResponse :=
  { model := "llama", created_at := "", message := ChatMessage.assistant "",
    done := true, final_data := none }

/-! Helper lemmas about the accumulation loop, the format step and the
event traces.  These are shared infrastructure, not claim theorems. -/

theorem formatStep_error_eq (format : Option FormatType)
    (tools : List ToolInfo) (history : List ChatMessage) (poisoned : Bool)
    (request : ChatMessageRequest) (e : OllamaError)
    (h : formatStep format tools history poisoned request = Except.error e) :
    e = OllamaError.MutexPoisoned := by
  cases format with
  | none => simp [formatStep] at h
  | some f =>
      by_cases ht : tools.isEmpty
      · simp [formatStep, ht] at h
      · by_cases hp : poisoned
        · simp [formatStep, ht, hp] at h
          exact h.symm
        · cases hl : history.getLast? with
          | none => simp [formatStep, ht, hp, hl] at h
          | some m =>
              by_cases hr : m.role = MessageRole.tool
              · simp [formatStep, ht, hp, hl, hr] at h
              · simp [formatStep, ht, hp, hl, hr] at h

theorem formatStep_trace (format : Option FormatType)
    (tools : List ToolInfo) (history : List ChatMessage) (poisoned : Bool)
    (request req : ChatMessageRequest) (tr : List Event)
    (h : formatStep format tools history poisoned request =
      Except.ok (req, tr)) :
    tr = [] ∨ tr = [Event.lockAcquire, Event.lockRelease] := by
  cases format with
  | none =>
      simp [formatStep] at h
      exact Or.inl h.2
  | some f =>
      by_cases ht : tools.isEmpty
      · simp [formatStep, ht] at h
        exact Or.inl h.2
      · by_cases hp : poisoned
        · simp [formatStep, ht, hp] at h
        · cases hl : history.getLast? with
          | none =>
              simp [formatStep, ht, hp, hl] at h
              exact Or.inr h.2.symm
          | some m =>
              by_cases hr : m.role = MessageRole.tool
              · simp [formatStep, ht, hp, hl, hr] at h
                exact Or.inr h.2.symm
              · simp [formatStep, ht, hp, hl, hr] at h
                exact Or.inr h.2.symm

theorem sendPrecheck_error (w : World) (te : Option String) (e : OllamaError)
    (h : sendPrecheck w te = Except.error e) :
    e = OllamaError.MutexPoisoned ∨
      ∃ m, e = OllamaError.TransportError m := by
  by_cases hp : w.poisoned
  · simp [sendPrecheck, hp] at h
    exact Or.inl h.symm
  · cases te with
    | none => simp [sendPrecheck, hp] at h
    | some m =>
        simp [sendPrecheck, hp] at h
        exact Or.inr ⟨m, h.symm⟩

theorem consumeStream_acc (s : List Fragment) :
    (consumeStream s).acc = okPrefixContent s := by
  induction s with
  | nil => rfl
  | cons f rest ih =>
      cases f with
      | error u => rfl
      | ok r => simp [consumeStream, okPrefixContent, ih]

theorem consumeStream_map_ok (frags : List ChatMessageResponse) :
    (consumeStream (frags.map Except.ok)).acc = concatContents frags := by
  induction frags with
  | nil => rfl
  | cons r rs ih => simp [consumeStream, concatContents, ih]

theorem okPrefixContent_stops_at_error (pre : List ChatMessageResponse)
    (post : List Fragment) :
    okPrefixContent (pre.map Except.ok ++ Except.error () :: post) =
      concatContents pre := by
  induction pre with
  | nil => rfl
  | cons r rs ih => simp [okPrefixContent, concatContents, ih]

theorem consumeStream_onlySuspends (s : List Fragment) :
    onlySuspends (consumeStream s).trace = true := by
  induction s with
  | nil => rfl
  | cons f rest ih =>
      cases f with
      | error u => rfl
      | ok r => simpa [consumeStream, onlySuspends] using ih

theorem suspendWhileLocked_of_onlySuspends (tr : List Event)
    (h : onlySuspends tr = true) : suspendWhileLocked tr 0 = false := by
  induction tr with
  | nil => rfl
  | cons e es ih =>
      cases e with
      | lockAcquire => simp [onlySuspends] at h
      | lockRelease => simp [onlySuspends] at h
      | suspend =>
          simp only [onlySuspends] at h
          simp [suspendWhileLocked, ih h]

theorem suspendWhileLocked_lockPair (rest : List Event)
    (h : onlySuspends rest = true) :
    suspendWhileLocked
      ([Event.lockAcquire, Event.lockRelease] ++ rest) 0 = false := by
  simp [suspendWhileLocked, suspendWhileLocked_of_onlySuspends rest h]

theorem formatStep_not_poisoned (format : Option FormatType)
    (tools : List ToolInfo) (history : List ChatMessage)
    (request : ChatMessageRequest) :
    ∃ req tr, formatStep format tools history false request =
        Except.ok (req, tr) ∧
      (tr = [] ∨ tr = [Event.lockAcquire, Event.lockRelease]) ∧
      req.messages = request.messages := by
  cases format with
  | none => exact ⟨request, [], rfl, Or.inl rfl, rfl⟩
  | some f =>
      by_cases h : tools.isEmpty
      · exact ⟨request.withFormat f, [],
          by simp [formatStep, h], Or.inl rfl, rfl⟩
      · cases hl : history.getLast? with
        | none =>
            exact ⟨request, [Event.lockAcquire, Event.lockRelease],
              by simp [formatStep, h, hl], Or.inr rfl, rfl⟩
        | some m =>
            by_cases hr : m.role = MessageRole.tool
            · exact ⟨request.withFormat f,
                [Event.lockAcquire, Event.lockRelease],
                by simp [formatStep, h, hl, hr], Or.inr rfl, rfl⟩
            · exact ⟨request, [Event.lockAcquire, Event.lockRelease],
                by simp [formatStep, h, hl, hr], Or.inr rfl, rfl⟩

theorem chat_result_not_poisoned (c : Coordinator) (w : World)
    (messages : List ChatMessage) (stream : List Fragment)
    (hp : w.poisoned = false) :
    (Coordinator.chat c w messages none stream).result =
      Except.ok
        { model := c.model, created_at := "",
          message := ChatMessage.assistant (consumeStream stream).acc,
          done := true, final_data := none } := by
  obtain ⟨req, tr, hfs, -, -⟩ :=
    formatStep_not_poisoned c.format c.tools.tool_info w.history
      (((ChatMessageRequest.new c.model messages).withOptions
          c.options).withTools c.tools.tool_info)
  unfold Coordinator.chat
  rw [hp, hfs]
  simp [sendPrecheck, hp]

theorem chat_sent_not_poisoned (c : Coordinator) (w : World)
    (messages : List ChatMessage) (te : Option String)
    (stream : List Fragment) (req : ChatMessageRequest) (tr : List Event)
    (hp : w.poisoned = false)
    (hfs : formatStep c.format c.tools.tool_info w.history false
      (((ChatMessageRequest.new c.model messages).withOptions
          c.options).withTools c.tools.tool_info) = Except.ok (req, tr)) :
    (Coordinator.chat c w messages te stream).sent = some req := by
  unfold Coordinator.chat
  rw [hp, hfs]
  cases te with
  | none => simp [sendPrecheck, hp]
  | some e => simp [sendPrecheck, hp]

theorem formatStep_format_iff (f : FormatType) (tools : List ToolInfo)
    (history : List ChatMessage) (request : ChatMessageRequest)
    (hreq : request.format = none) :
    ∃ req tr, formatStep (some f) tools history false request =
        Except.ok (req, tr) ∧
      (req.format = some f ↔
        (tools = [] ∨
          ∃ m, history.getLast? = some m ∧ m.role = MessageRole.tool)) := by
  by_cases ht : tools.isEmpty
  · refine ⟨request.withFormat f, [], by simp [formatStep, ht], ?_⟩
    exact iff_of_true rfl (Or.inl (List.isEmpty_iff.mp ht))
  · cases hl : history.getLast? with
    | none =>
        refine ⟨request, [Event.lockAcquire, Event.lockRelease],
          by simp [formatStep, ht, hl], ?_⟩
        constructor
        · intro hc
          rw [hreq] at hc
          exact Option.noConfusion hc
        · rintro (hc | ⟨m, hm, -⟩)
          · exact absurd (List.isEmpty_iff.mpr hc) ht
          · exact Option.noConfusion hm
    | some m =>
        by_cases hr : m.role = MessageRole.tool
        · refine ⟨request.withFormat f,
            [Event.lockAcquire, Event.lockRelease],
            by simp [formatStep, ht, hl, hr], ?_⟩
          exact iff_of_true rfl (Or.inr ⟨m, rfl, hr⟩)
        · refine ⟨request, [Event.lockAcquire, Event.lockRelease],
            by simp [formatStep, ht, hl, hr], ?_⟩
          constructor
          · intro hc
            rw [hreq] at hc
            exact Option.noConfusion hc
          · rintro (hc | ⟨m', hm', hr'⟩)
            · exact absurd (List.isEmpty_iff.mpr hc) ht
            · cases hm'
              exact absurd hr' hr

/-! The claim theorems, one per claim of the specification, with
witnesses and counterexamples where applicable. -/

/-- C1: with a configured format constraint and an unpoisoned history
lock, `chat` submits exactly one outgoing request, and the format
constraint is attached to it if and only if the tool descriptor set
enumerated from the ToolGroup is empty or the last message in the
shared history has role Tool (in particular, with tools registered and
an empty or non-tool-ended history, it is not attached). -/
theorem chat_format_attached_iff (c : Coordinator) (w : World)
    (messages : List ChatMessage) (te : Option String)
    (stream : List Fragment) (f : FormatType)
    (hf : c.format = some f) (hp : w.poisoned = false) :
    ∃ req, (Coordinator.chat c w messages te stream).sent = some req ∧
      (req.format = some f ↔
        (c.tools.tool_info = [] ∨
          ∃ m, w.history.getLast? = some m ∧
            m.role = MessageRole.tool)) := by
  obtain ⟨req, tr, hfs, hiff⟩ :=
    formatStep_format_iff f c.tools.tool_info w.history
      (((ChatMessageRequest.new c.model messages).withOptions
          c.options).withTools c.tools.tool_info) rfl
  refine ⟨req, ?_, hiff⟩
  apply chat_sent_not_poisoned c w messages te stream req tr hp
  rw [hf]
  exact hfs

/-- Witness for C1: a concrete coordinator with a configured format
and no tools, over an unpoisoned empty world. -/
theorem chat_format_attached_iff_witness :
    ∃ req, (Coordinator.chat formatCoordinator emptyWorld [] none
        []).sent = some req ∧
      (req.format = some { schema := "json" } ↔
        (formatCoordinator.tools.tool_info = [] ∨
          ∃ m, emptyWorld.history.getLast? = some m ∧
            m.role = MessageRole.tool)) :=
  chat_format_attached_iff formatCoordinator emptyWorld [] none []
    { schema := "json" } rfl rfl

/-- C2 counterexample: on a stream delivering the chunk "a", then a
fragment-level error, then the chunk "b", `chat` returns a success
value containing the partial content "a" accumulated before the error
— not the error, and not with the partial output discarded. -/
theorem chat_midstream_error_counterexample :
    (Coordinator.chat plainCoordinator emptyWorld [ChatMessage.user "hi"]
        none midErrorStream).result =
      Except.ok
        { model := "llama", created_at := "",
          message := ChatMessage.assistant "a", done := true,
          final_data := none } := by
  rfl

/-- C2 amended: if a fragment-level error occurs mid-stream, `chat`
stops consuming at that fragment and returns a success value whose
content is exactly the partial output accumulated before the error;
the fragment-level error itself is swallowed, not returned. -/
theorem chat_midstream_error_keeps_partial (c : Coordinator) (w : World)
    (messages : List ChatMessage) (pre : List ChatMessageResponse)
    (post : List Fragment) (hp : w.poisoned = false) :
    (Coordinator.chat c w messages none
        (pre.map Except.ok ++ Except.error () :: post)).result =
      Except.ok
        { model := c.model, created_at := "",
          message := ChatMessage.assistant (concatContents pre),
          done := true, final_data := none } := by
  rw [chat_result_not_poisoned c w messages _ hp, consumeStream_acc,
    okPrefixContent_stops_at_error]

/-- Witness for the amended C2 at a concrete mid-error stream. -/
theorem chat_midstream_error_keeps_partial_witness :
    (Coordinator.chat plainCoordinator emptyWorld []
        none ([mkFragment "a" false []].map Except.ok ++
          Except.error () :: [Except.ok (mkFragment "b" true [])])).result =
      Except.ok
        { model := plainCoordinator.model, created_at := "",
          message :=
            ChatMessage.assistant (concatContents [mkFragment "a" false []]),
          done := true, final_data := none } :=
  chat_midstream_error_keeps_partial plainCoordinator emptyWorld []
    [mkFragment "a" false []] [Except.ok (mkFragment "b" true [])] rfl

/-- C7: whenever the history lock is poisoned by a prior panic, `chat`
fails with a MutexPoisoned error (either at the format-policy check or
at the service call, which per the spec must acquire the lock to
append the new messages). -/
theorem chat_poisoned_fails (c : Coordinator) (w : World)
    (messages : List ChatMessage) (te : Option String)
    (stream : List Fragment) (hp : w.poisoned = true) :
    (Coordinator.chat c w messages te stream).result =
      Except.error OllamaError.MutexPoisoned := by
  unfold Coordinator.chat
  split
  case _ e h => rw [formatStep_error_eq _ _ _ _ _ _ h]
  case _ req tr h =>
    split
    · rfl
    case _ e2 h2 =>
      simp [sendPrecheck, hp] at h2
      rw [← h2]
    case _ u h3 =>
      simp [sendPrecheck, hp] at h3

/-- Witness for C7: a poisoned world makes a concrete chat fail with
MutexPoisoned. -/
theorem chat_poisoned_fails_witness :
    (Coordinator.chat plainCoordinator poisonedWorld [] none []).result =
      Except.error OllamaError.MutexPoisoned :=
  chat_poisoned_fails plainCoordinator poisonedWorld [] none [] rfl

/-- C3 counterexample: on a stream whose assistant turn carries one
tool-call request, with a tool group registered, `chat` performs no
dispatch: the check that the dispatch log equals the tool calls
carried by the stream evaluates to false. -/
theorem chat_tool_dispatch_counterexample :
    ((Coordinator.chat toolCoordinator emptyWorld [ChatMessage.user "hi"]
        none toolCallStream).dispatched ==
      streamToolCalls toolCallStream) = false := by
  rfl

/-- C3 amended: `chat` never invokes the ToolGroup's dispatch
operation and never recurses: for every input the dispatch log is
empty and at most one service round-trip occurs (the dispatch and
recursion block of coordinator.rs lines 160-195 is commented out). -/
theorem chat_no_tool_dispatch (c : Coordinator) (w : World)
    (messages : List ChatMessage) (te : Option String)
    (stream : List Fragment) :
    (Coordinator.chat c w messages te stream).dispatched = [] ∧
      (Coordinator.chat c w messages te stream).rounds ≤ 1 := by
  unfold Coordinator.chat
  split
  · exact ⟨rfl, Nat.zero_le 1⟩
  · split
    · exact ⟨rfl, le_refl 1⟩
    · exact ⟨rfl, le_refl 1⟩
    · exact ⟨rfl, le_refl 1⟩

/-- C4: for every error-free fragment sequence whose last fragment is
marked terminal, `chat` returns a message whose content equals the
concatenation of each fragment's content delta in arrival order. -/
theorem chat_concatenates_deltas (c : Coordinator) (w : World)
    (messages : List ChatMessage) (frags : List ChatMessageResponse)
    (hp : w.poisoned = false) (_hterm : lastDone frags = true) :
    (Coordinator.chat c w messages none (frags.map Except.ok)).result =
      Except.ok
        { model := c.model, created_at := "",
          message := ChatMessage.assistant (concatContents frags),
          done := true, final_data := none } := by
  rw [chat_result_not_poisoned c w messages _ hp, consumeStream_map_ok]

/-- Witness for C4: the two-fragment stream "Hel", "lo" with the last
fragment terminal yields content "Hello". -/
theorem chat_concatenates_deltas_witness :
    (Coordinator.chat plainCoordinator emptyWorld [ChatMessage.user "hi"]
        none ([mkFragment "Hel" false [], mkFragment "lo" true []].map
          Except.ok)).result =
      Except.ok
        { model := plainCoordinator.model, created_at := "",
          message := ChatMessage.assistant
            (concatContents [mkFragment "Hel" false [], mkFragment "lo" true []]),
          done := true, final_data := none } :=
  chat_concatenates_deltas plainCoordinator emptyWorld
    [ChatMessage.user "hi"] [mkFragment "Hel" false [], mkFragment "lo" true []]
    rfl rfl

/-- C5 counterexample: in the endless tool-call scenario (a tool group
registered and a stream that always requests another tool call),
`chat` simply succeeds after one round-trip; it does not fail with
IterationLimitExceeded, because the code has no recursion and no
iteration ceiling. -/
theorem chat_iteration_limit_counterexample :
    (Coordinator.chat toolCoordinator emptyWorld []
        none endlessToolCallStream).result =
      Except.ok
        { model := "llama", created_at := "",
          message := ChatMessage.assistant "", done := true,
          final_data := none } := by
  rfl

/-- C5 amended: `chat` has no recursive tool-call loop and no
iteration ceiling: it never returns IterationLimitExceeded, for any
input whatsoever. -/
theorem chat_never_iteration_limit (c : Coordinator) (w : World)
    (messages : List ChatMessage) (te : Option String)
    (stream : List Fragment) :
    isIterLimit (Coordinator.chat c w messages te stream).result = false := by
  unfold Coordinator.chat
  split
  case _ e h =>
    rw [formatStep_error_eq _ _ _ _ _ _ h]
    rfl
  case _ req tr h =>
    split
    · rfl
    case _ e hne h2 =>
      rcases sendPrecheck_error w te e h2 with he | ⟨m, he⟩ <;> subst he <;> rfl
    · rfl

/-- C6: every successful invocation of `chat` returns a resolved turn
carrying the Coordinator's model name, the empty placeholder
timestamp, a single message of role assistant, done = true and no
final data; and if the stream yields zero fragments, the content is
the empty string. -/
theorem chat_resolved_turn_shape (c : Coordinator) (w : World)
    (messages : List ChatMessage) (te : Option String)
    (stream : List Fragment) (r : ChatMessageResponse)
    (h : (Coordinator.chat c w messages te stream).result = Except.ok r) :
    r.model = c.model ∧ r.created_at = "" ∧
      r.message.role = MessageRole.assistant ∧ r.done = true ∧
      r.final_data = none ∧ (stream = [] → r.message.content = "") := by
  unfold Coordinator.chat at h
  split at h
  · simp at h
  · split at h
    · simp at h
    · simp at h
    · simp only [Except.ok.injEq] at h
      subst h
      refine ⟨rfl, rfl, rfl, rfl, rfl, fun hs => ?_⟩
      subst hs
      rfl

/-- Witness for C6: a concrete successful chat over the empty stream
has the stated shape with empty content. -/
theorem chat_resolved_turn_shape_witness :
    respEmpty.model = plainCoordinator.model ∧ respEmpty.created_at = "" ∧
      respEmpty.message.role = MessageRole.assistant ∧
      respEmpty.done = true ∧ respEmpty.final_data = none ∧
      (([] : List Fragment) = [] → respEmpty.message.content = "") :=
  chat_resolved_turn_shape plainCoordinator emptyWorld [] none [] respEmpty rfl

/-- C8 counterexample: on a stream whose first fragment is terminal
and is followed by a further fragment, the delta "b" delivered after
the terminal fragment does appear in the returned content "ab": the
loop never inspects the done flag. -/
theorem chat_terminal_flag_counterexample :
    (Coordinator.chat plainCoordinator emptyWorld [] none
        pastTerminalStream).result =
      Except.ok
        { model := "llama", created_at := "",
          message := ChatMessage.assistant "ab", done := true,
          final_data := none } := by
  rfl

/-- C8 amended: `chat` accumulates the content of the longest
error-free prefix of the fragment sequence: it stops only at the end
of the sequence or at the first error fragment, regardless of any
terminal flag. -/
theorem chat_accumulates_until_end_or_error (c : Coordinator) (w : World)
    (messages : List ChatMessage) (stream : List Fragment)
    (hp : w.poisoned = false) :
    (Coordinator.chat c w messages none stream).result =
      Except.ok
        { model := c.model, created_at := "",
          message := ChatMessage.assistant (okPrefixContent stream),
          done := true, final_data := none } := by
  rw [chat_result_not_poisoned c w messages stream hp, consumeStream_acc]

/-- Witness for the amended C8 at the concrete past-terminal
stream. -/
theorem chat_accumulates_until_end_or_error_witness :
    (Coordinator.chat plainCoordinator emptyWorld [] none
        pastTerminalStream).result =
      Except.ok
        { model := plainCoordinator.model, created_at := "",
          message := ChatMessage.assistant (okPrefixContent pastTerminalStream),
          done := true, final_data := none } :=
  chat_accumulates_until_end_or_error plainCoordinator emptyWorld []
    pastTerminalStream rfl

/-- C9: during every invocation of `chat` the history lock is never
held across a suspension point: in the execution trace, no suspension
event occurs while the lock depth is positive — the lock taken for the
format-policy check is released before the service call and before any
fragment is consumed. -/
theorem chat_lock_discipline (c : Coordinator) (w : World)
    (messages : List ChatMessage) (te : Option String)
    (stream : List Fragment) :
    suspendWhileLocked (Coordinator.chat c w messages te stream).trace 0 =
      false := by
  unfold Coordinator.chat
  split
  · rfl
  case _ req tr h =>
    have htr := formatStep_trace _ _ _ _ _ _ _ h
    split
    · rcases htr with rfl | rfl
      · rfl
      · exact suspendWhileLocked_lockPair [Event.suspend] rfl
    · rcases htr with rfl | rfl
      · rfl
      · exact suspendWhileLocked_lockPair [Event.suspend] rfl
    · rcases htr with rfl | rfl
      · exact suspendWhileLocked_of_onlySuspends _
          (consumeStream_onlySuspends stream)
      · exact suspendWhileLocked_lockPair _
          (consumeStream_onlySuspends stream)

/-- C10: every invocation of `chat` leaves the Coordinator's own
configuration unchanged — model name, generation options, tools, debug
flag, format constraint, and the shared history handle returned by
`history()` are identical before and after the call, whether it
succeeds or fails. -/
theorem chat_preserves_coordinator (c : Coordinator) (w : World)
    (messages : List ChatMessage) (te : Option String)
    (stream : List Fragment) :
    (Coordinator.chat c w messages te stream).coord.model = c.model ∧
      (Coordinator.chat c w messages te stream).coord.options = c.options ∧
      (Coordinator.chat c w messages te stream).coord.tools = c.tools ∧
      (Coordinator.chat c w messages te stream).coord.debug = c.debug ∧
      (Coordinator.chat c w messages te stream).coord.format = c.format ∧
      Coordinator.history (Coordinator.chat c w messages te stream).coord =
        Coordinator.history c := by
  have h : (Coordinator.chat c w messages te stream).coord = c := by
    unfold Coordinator.chat
    split
    · rfl
    · split <;> rfl
  rw [h]
  exact ⟨rfl, rfl, rfl, rfl, rfl, rfl⟩

end OllamaRs
